import Mathlib

/-
Verification of the Medical Report Analyzer backend (`app.py`).

The Flask application is shallowly embedded: each HTTP handler becomes a
pure Lean function from its request data and the mutable process state
(the `session_data` dictionary and the upload directory of the file
system) to a JSON-shaped response together with the updated state.
External collaborators are modelled by their observable outcomes:

* `pdfplumber` is modelled by the outcome of opening a PDF, namely either
  a parse error or the list of per-page `extract_text()` results
  (`none` models a page whose extraction returns Python `None`);
* the `phi` agent is modelled by a function from the composed prompt to
  either a raised error or the list of streamed chunk contents;
* `datetime.now()` becomes an explicit `now : Nat` parameter measured in
  seconds (the microsecond resolution of `datetime` is irrelevant to the
  thirty-minute comparisons made by the code);
* the upload directory is a set of existing paths plus the set of paths
  whose `os.remove` raises an `OSError` (real file systems have unique
  paths, so removal is modelled as filtering the path out).

Python dictionaries become association lists: membership, indexing and

item assignment are `dictGet` and `dictInsert` below.
-/

set_option autoImplicit false

namespace MedReport

/-! ### Python string primitives -/

/-- The ASCII whitespace characters recognised by Python `str.strip` and
`str.split`. -/
def pyIsSpace (c : Char) : Bool :=
  c = ' ' || c = '\t' || c = '\n' || c = '\r' || c = '\x0b' || c = '\x0c'

/-- Drop the trailing characters of a list that satisfy `p`. -/
def dropTrail (p : Char → Bool) (l : List Char) : List Char :=
  (l.reverse.dropWhile p).reverse

/-- Python `str.strip()`: remove leading and trailing whitespace.  The
right end is trimmed first; trimming the two ends is order-independent. -/
def pyStrip (s : String) : String :=
  String.mk ((dropTrail pyIsSpace s.data).dropWhile pyIsSpace)

/-- Whether the pattern is an initial segment of the text. -/
def leadMatch : List Char → List Char → Bool
  | [], _ => true
  | _ :: _, [] => false
  | p :: ps, c :: cs => p = c && leadMatch ps cs

/-- Whether the pattern occurs somewhere in the text. -/
def subMatch (pat : List Char) : List Char → Bool
  | [] => leadMatch pat []
  | c :: cs => leadMatch pat (c :: cs) || subMatch pat cs

/-- Python `pat in s`. -/
def strContainsSub (s pat : String) : Bool :=
  subMatch pat.data s.data

/-- Split a character list at every separator satisfying `p`, keeping
empty chunks (the second argument accumulates the current chunk in
reverse). -/
def splitByAux (p : Char → Bool) : List Char → List Char → List (List Char)
  | [], acc => [acc.reverse]
  | c :: cs, acc =>
    if p c then acc.reverse :: splitByAux p cs []
    else splitByAux p cs (c :: acc)

/-- Python `str.split()` with no separator: split on whitespace runs,
discarding empty chunks. -/
def pySplitWs (s : String) : List String :=
  ((splitByAux pyIsSpace s.data []).map String.mk).filter (fun t => t ≠ "")

/-- Python `str.lower()` for ASCII text. -/
def strToLower (s : String) : String :=
  String.mk (s.data.map Char.toLower)

/-- Python `"_".join(parts)`. -/
def joinUnderscore : List String → String
  | [] => ""
  | [t] => t
  | t :: ts => t ++ "_" ++ joinUnderscore ts

/-- The characters kept by werkzeug's `_filename_ascii_strip_re`,
namely `[A-Za-z0-9_.-]`. -/
def filenameCharOk (c : Char) : Bool :=
  c.isAlphanum || c = '_' || c = '.' || c = '-'

/-- Model of `werkzeug.utils.secure_filename` restricted to ASCII input on
a POSIX host (`os.sep = "/"`, `os.path.altsep = None`, and the Windows
special-device branch does not apply): replace the path separator by a
space, join the whitespace-separated chunks with underscores, delete the
characters outside `[A-Za-z0-9_.-]`, and strip leading and trailing `.`
and `_`. -/
def secure_filename (filename : String) : String :=
  let s1 := String.mk (filename.data.map (fun c => if c = '/' then ' ' else c))
  let s2 := joinUnderscore (pySplitWs s1)
  let s3 := String.mk (s2.data.filter filenameCharOk)
  String.mk ((dropTrail (fun c => c = '.' || c = '_') s3.data).dropWhile
    (fun c => c = '.' || c = '_'))

/-! ### Configuration constants of `app.py` -/

def UPLOAD_FOLDER : String := "uploads"

def ALLOWED_EXTENSIONS : List String := ["pdf"]

def SESSION_TIMEOUT_MINUTES : Nat := 30

def CLEANUP_INTERVAL_MINUTES : Nat := 10

/-! ### Session store -/

/-- One value of the `session_data` dictionary.  Every record created by
`upload_pdf` carries all four keys, so `file_path` is not optional here
(the `'file_path' in data` test of the cleanup loop is therefore always
true). -/
structure SessionRecord where
  text : String
  file_path : String
  filename : String
  timestamp : Nat
  deriving DecidableEq, Repr

/-- The `session_data` dictionary, as an association list from session id
to record. -/
abbrev Store := List (String × SessionRecord)

/-- Python `session_data[sid]` and `sid in session_data`: the first
binding of the key, if any. -/
def dictGet : Store → String → Option SessionRecord
  | [], _ => none
  | kv :: rest, k => if kv.1 = k then some kv.2 else dictGet rest k

/-- Python `session_data[sid] = rec`: item assignment keeps at most one
binding per key. -/
def dictInsert (store : Store) (k : String) (v : SessionRecord) : Store :=
  (k, v) :: store.filter (fun kv => decide (kv.1 ≠ k))

/-! ### File system -/

/-- The upload directory together with the removal faults the OS will
produce: `removeFails` holds the paths for which `os.remove` raises. -/
structure FileSys where
  files : List String
  removeFails : List String
  deriving DecidableEq, Repr

/-- Python `file.save(path)`: afterwards the path exists. -/
def saveFile (fs : FileSys) (p : String) : FileSys :=
  if p ∈ fs.files then fs else { fs with files := p :: fs.files }

/-- Python `os.remove(path)`: either raises, or the path no longer
exists. -/
def osRemove (fs : FileSys) (p : String) : Except String FileSys :=
  if p ∈ fs.removeFails then Except.error ("OSError: cannot remove " ++ p)
  else Except.ok { fs with files := fs.files.filter (fun q => decide (q ≠ p)) }

/-- The guarded removal pattern of `cleanup_old_sessions`:
`try: if os.path.exists(p): os.remove(p) except: pass`. -/
def tryRemove (fs : FileSys) (p : String) : FileSys :=
  if p ∈ fs.files then
    match osRemove fs p with
    | Except.ok fs2 => fs2
    | Except.error _ => fs
  else fs

/-! ### `allowed_file` and `extract_text_from_pdf` -/

/-- `allowed_file`: `'.' in filename and
filename.rsplit('.', 1)[1].lower() in ALLOWED_EXTENSIONS`.  The last
chunk of `splitOn "."` is exactly `rsplit('.', 1)[1]` when a dot is
present. -/
def allowed_file (filename : String) : Bool :=
  filename.data.contains '.' &&
    ALLOWED_EXTENSIONS.contains
      (strToLower (((splitByAux (fun c => c = '.') filename.data []).map
        String.mk).getLastD ""))

/-- The observable outcome of `pdfplumber.open` on one PDF file: a parse
error, or the per-page results of `page.extract_text()` in page order
(`none` for a page where extraction returns `None`). -/
abbrev PdfContent := Except String (List (Option String))

deriving instance DecidableEq for Except

/-- `extract_text_from_pdf`: accumulate `page_text + "\n"` for every page
whose extracted text is truthy (neither `None` nor empty), return the
accumulation stripped; wrap a parse failure in the fixed message. -/
def extract_text_from_pdf (pdf : PdfContent) : Except String String :=
  match pdf with
  | Except.error e => Except.error ("Error extracting text from PDF: " ++ e)
  | Except.ok pages =>
    let text := pages.foldl (fun text page_text =>
      match page_text with
      | some t => if t = "" then text else text ++ t ++ "\n"
      | none => text) ""
    Except.ok (pyStrip text)

/-! ### The cleanup sweep -/

/-- The expiry test of the cleanup loop:
`current_time - data['timestamp'] > timedelta(minutes=SESSION_TIMEOUT_MINUTES)`. -/
def sessionExpired (now ts : Nat) : Bool :=
  decide (SESSION_TIMEOUT_MINUTES * 60 < now - ts)

/-- The first loop of a sweep pass: the ids collected into
`expired_sessions`. -/
def expiredIds (now : Nat) (store : Store) : List String :=
  (store.filter (fun kv => sessionExpired now kv.2.timestamp)).map Prod.fst

/-- The second loop of a sweep pass: for each collected id, best-effort
file removal followed by `del session_data[session_id]`.  The `none`
branch is unreachable (each collected id is deleted exactly once) but
mirrors the dictionary access. -/
def sweepLoop : List String → Store → FileSys → Store × FileSys
  | [], store, fs => (store, fs)
  | sid :: rest, store, fs =>
    match dictGet store sid with
    | some r =>
      sweepLoop rest (store.filter (fun kv => decide (kv.1 ≠ sid)))
        (tryRemove fs r.file_path)
    | none => sweepLoop rest store fs

/-- One pass of the body of `cleanup_old_sessions` at time `now` (the
surrounding `while True` / `sleep` merely repeats this pass every
`CLEANUP_INTERVAL_MINUTES` minutes).  Returns the new store, the new file
system, and the `expired_sessions` list. -/
def cleanup_old_sessions (now : Nat) (store : Store) (fs : FileSys) :
    Store × FileSys × List String :=
  let ids := expiredIds now store
  let res := sweepLoop ids store fs
  (res.1, res.2, ids)

/-! ### HTTP responses -/

/-- The JSON body and status code produced by `upload_pdf`.  Absent JSON
keys are `none`. -/
structure UploadResp where
  status : Nat
  error : Option String := none
  message : Option String := none
  session_id : Option String := none
  filename : Option String := none
  text_length : Option Nat := none
  deriving DecidableEq, Repr

/-- The JSON body and status code produced by `ask_question`. -/
structure AskResp where
  status : Nat
  error : Option String := none
  response : Option String := none
  filename : Option String := none
  deriving DecidableEq, Repr

/-- The JSON body and status code produced by `get_session_info`. -/
structure SessionResp where
  status : Nat
  error : Option String := none
  filename : Option String := none
  text_length : Option Nat := none
  upload_time : Option Nat := none
  deriving DecidableEq, Repr

/-- The JSON body and status code produced by `health_check`. -/
structure HealthResp where
  status : Nat
  body_status : String
  active_sessions : Nat
  timestamp : Nat
  deriving DecidableEq, Repr

/-! ### `POST /upload` -/

/-- The multipart file of an upload request: the client-supplied name,
the byte size, and the PDF content as seen by `pdfplumber` once saved. -/
structure UploadedFile where
  filename : String
  size : Nat
  content : PdfContent

/-- `upload_pdf`.  `req = none` models a request without a `pdf` part;
`session_id` is the fresh `uuid.uuid4()` value; `now` is `datetime.now()`.
The handler never consults `file.size`: `app.py` contains no empty-file
check.  An `OSError` raised by the unguarded `os.remove` calls escapes to
the outer `except` and becomes a 500 `Upload failed` response. -/
def upload_pdf (req : Option UploadedFile) (session_id : String) (now : Nat)
    (store : Store) (fs : FileSys) : UploadResp × Store × FileSys :=
  match req with
  | none => ({ status := 400, error := some "No file provided" }, store, fs)
  | some file =>
    if file.filename = "" then
      ({ status := 400, error := some "No file selected" }, store, fs)
    else if ¬ allowed_file file.filename then
      ({ status := 400, error := some "Only PDF files are allowed" }, store, fs)
    else
      let fname := session_id ++ "_" ++ secure_filename file.filename
      let file_path := UPLOAD_FOLDER ++ "/" ++ fname
      let fs1 := saveFile fs file_path
      match extract_text_from_pdf file.content with
      | Except.error e =>
        if file_path ∈ fs1.files then
          match osRemove fs1 file_path with
          | Except.ok fs2 =>
            ({ status := 400, error := some ("Failed to process PDF: " ++ e) },
              store, fs2)
          | Except.error oe =>
            ({ status := 500, error := some ("Upload failed: " ++ oe) }, store, fs1)
        else
          ({ status := 400, error := some ("Failed to process PDF: " ++ e) },
            store, fs1)
      | Except.ok text =>
        if text = "" then
          if file_path ∈ fs1.files then
            match osRemove fs1 file_path with
            | Except.ok fs2 =>
              ({ status := 400,
                 error := some "No text could be extracted from the PDF" },
                store, fs2)
            | Except.error oe =>
              ({ status := 500, error := some ("Upload failed: " ++ oe) },
                store, fs1)
          else
            ({ status := 400,
               error := some "No text could be extracted from the PDF" },
              store, fs1)
        else
          let store2 := dictInsert store session_id
            { text := text, file_path := file_path, filename := file.filename,
              timestamp := now }
          ({ status := 200,
             message := some "PDF uploaded and processed successfully",
             session_id := some session_id,
             filename := some file.filename,
             text_length := some text.length }, store2, fs1)

/-! ### `POST /ask` -/

/-- The parsed JSON body of an ask request; each field is `none` when the
key is absent (`data.get(..., "")` then supplies `""`). -/
structure AskReq where
  query : Option String
  session_id : Option String

/-- The `full_prompt` f-string of `ask_question`. -/
def mkPrompt (context query : String) : String :=
  "Here is a medical lab report:\n\n" ++ context ++
  "\n\nUser\x27s question: " ++ query ++
  "\n\nPlease analyze this lab report and answer the user\x27s question. Remember to:\n" ++
  "- Explain medical terms in simple language\n" ++
  "- Mention normal ranges when discussing lab values\n" ++
  "- Be reassuring and educational\n" ++
  "- Always recommend consulting with a healthcare provider\n" ++
  "- Never provide specific medical diagnoses or treatment recommendations"

/-- The fallback substituted when the accumulated agent output strips to
the empty string. -/
def fallbackEmpty : String :=
  "I apologize, but I couldn\x27t generate a response. Please try rephrasing your question."

/-- The fallback substituted when the agent call raises. -/
def fallbackError : String :=
  "I\x27m sorry, but I encountered an error while processing your question. Please try again."

/-- `ask_question`.  `req = none` models `request.get_json()` returning
nothing; `agentRun` models `agent.run(_, stream=True)`, giving either a
raised error or the streamed chunk contents that the loop concatenates. -/
def ask_question (req : Option AskReq) (now : Nat)
    (agentRun : String → Except String (List String))
    (store : Store) : AskResp × Store :=
  match req with
  | none => ({ status := 400, error := some "No JSON data provided" }, store)
  | some data =>
    let query := pyStrip (data.query.getD "")
    let session_id := pyStrip (data.session_id.getD "")
    if query = "" then
      ({ status := 400, error := some "No question provided" }, store)
    else if session_id = "" then
      ({ status := 400, error := some "No session ID provided" }, store)
    else
      match dictGet store session_id with
      | none =>
        ({ status := 400,
           error := some "Session not found or expired. Please upload your PDF again." },
          store)
      | some info0 =>
        let info := { info0 with timestamp := now }
        let store2 := dictInsert store session_id info
        let full_prompt := mkPrompt info.text query
        let response :=
          match agentRun full_prompt with
          | Except.ok chunks =>
            let r := String.join chunks
            if pyStrip r = "" then fallbackEmpty else r
          | Except.error _ => fallbackError
        ({ status := 200, response := some response,
           filename := some info.filename }, store2)

/-! ### `GET /session/<id>` and `GET /health` -/

/-- `get_session_info`: a pure read of the store. -/
def get_session_info (session_id : String) (store : Store) :
    SessionResp × Store :=
  match dictGet store session_id with
  | none => ({ status := 404, error := some "Session not found" }, store)
  | some info =>
    ({ status := 200, filename := some info.filename,
       text_length := some info.text.length,
       upload_time := some info.timestamp }, store)

/-- `health_check`: a pure read of the store. -/
def health_check (now : Nat) (store : Store) : HealthResp × Store :=
  ({ status := 200, body_status := "healthy",
     active_sessions := store.length, timestamp := now }, store)

/-! ### The extractor contract as the specification words it -/

/-- Concatenation of a list of page texts with a newline separator. -/
def joinWithNewline : List String → String
  | [] => ""
  | [t] => t
  | t :: ts => t ++ "\n" ++ joinWithNewline ts

/-- The specification reading of the extractor: keep the pages whose
extracted text is defined and nonempty, in order; concatenate with a
newline separator; trim leading and trailing whitespace. -/
def extract_spec (pages : List (Option String)) : String :=
  pyStrip (joinWithNewline ((pages.filterMap id).filter (fun t => t ≠ "")))

/-! ### Derived forms used by the statements below -/

/-- Concatenation of page texts with a newline terminator after each,
exactly what the accumulation loop of `extract_text_from_pdf` builds. -/
def concatNl : List String → String
  | [] => ""
  | t :: ts => t ++ "\n" ++ concatNl ts

/-- The answer string `ask_question` produces from the agent outcome:
concatenate the streamed chunks, substitute `fallbackEmpty` when the
result strips to nothing, substitute `fallbackError` when the call
raised. -/
def askResponse (res : Except String (List String)) : String :=
  match res with
  | Except.ok chunks =>
    let r := String.join chunks
    if pyStrip r = "" then fallbackEmpty else r
  | Except.error _ => fallbackError

/-- The on-disk path `upload_pdf` saves a given upload under. -/
def uploadPath (session_id : String) (file : UploadedFile) : String :=
  UPLOAD_FOLDER ++ "/" ++ (session_id ++ "_" ++ secure_filename file.filename)

/-- A zero-byte upload named `report.pdf`: `pdfplumber` cannot parse an
empty stream, so its observable content is a parse error. -/
def zeroByteFile : UploadedFile :=
  ⟨"report.pdf", 0, Except.error "Is this really a PDF?"⟩

/-- A corrupt upload whose parse fails. -/
def badXrefFile : UploadedFile :=
  ⟨"report.pdf", 10, Except.error "bad xref table"⟩

/-- An upload whose client-supplied name contains a path component. -/
def traversalFile : UploadedFile :=
  ⟨"../report.pdf", 100, Except.ok [some "Hemoglobin 9.2 g/dL"]⟩

/-- An upload that parses but has no extractable text. -/
def blankPagesFile : UploadedFile :=
  ⟨"report.pdf", 10, Except.ok [none, some ""]⟩

/-! ### String lemmas -/

theorem string_data_append (s t : String) : (s ++ t).data = s.data ++ t.data := rfl

theorem dropTrail_append_sat (p : Char → Bool) (l : List Char) (c : Char)
    (h : p c = true) : dropTrail p (l ++ [c]) = dropTrail p l := by
  simp [dropTrail, List.dropWhile_cons, h]

theorem pyStrip_append_newline (s : String) : pyStrip (s ++ "\n") = pyStrip s := by
  unfold pyStrip
  rw [string_data_append]
  rw [show ("\n" : String).data = ['\n'] from rfl]
  rw [dropTrail_append_sat pyIsSpace s.data '\n' rfl]

theorem pyStrip_empty : pyStrip "" = "" := rfl

theorem pyStrip_all_space (s : String) (h : ∀ c ∈ s.data, pyIsSpace c = true) :
    pyStrip s = "" := by
  apply String.ext
  show (dropTrail pyIsSpace s.data).dropWhile pyIsSpace = ("" : String).data
  have h1 : s.data.reverse.dropWhile pyIsSpace = [] := by
    rw [List.dropWhile_eq_nil_iff]
    intro c hc
    exact h c (List.mem_reverse.mp hc)
  simp [dropTrail, h1]

/-! ### Extractor refinement lemmas -/

theorem extract_foldl (pages : List (Option String)) : ∀ acc : String,
    pages.foldl (fun text page_text =>
      match page_text with
      | some t => if t = "" then text else text ++ t ++ "\n"
      | none => text) acc =
    acc ++ concatNl (((pages.filterMap id).filter (fun t => decide (t ≠ "")))) := by
  induction pages with
  | nil => intro acc; simp [concatNl]
  | cons pt rest ih =>
    intro acc
    cases pt with
    | none => simpa using ih acc
    | some t =>
      by_cases ht : t = ""
      · subst ht; simpa using ih acc
      · simp only [List.foldl_cons, List.filterMap_cons, id_eq, List.filter_cons]
        rw [ih]
        simp [ht, concatNl, String.append_assoc]

theorem concatNl_eq_joinWithNewline (ts : List String) :
    concatNl ts = if ts = [] then "" else joinWithNewline ts ++ "\n" := by
  induction ts with
  | nil => rfl
  | cons t ts ih =>
    cases ts with
    | nil => simp [concatNl, joinWithNewline]
    | cons u us =>
      rw [show concatNl (t :: u :: us) = t ++ "\n" ++ concatNl (u :: us) from rfl, ih]
      simp [joinWithNewline, String.append_assoc]

theorem pyStrip_concatNl (ts : List String) :
    pyStrip (concatNl ts) = pyStrip (joinWithNewline ts) := by
  cases ts with
  | nil => rfl
  | cons t ts =>
    rw [concatNl_eq_joinWithNewline, if_neg (List.cons_ne_nil t ts)]
    exact pyStrip_append_newline _

theorem extract_ok_eq_spec (pages : List (Option String)) :
    extract_text_from_pdf (Except.ok pages) = Except.ok (extract_spec pages) := by
  simp only [extract_text_from_pdf, extract_spec]
  rw [extract_foldl pages ""]
  have : ("" : String) ++ concatNl ((pages.filterMap id).filter (fun t => decide (t ≠ ""))) =
      concatNl ((pages.filterMap id).filter (fun t => decide (t ≠ ""))) := by
    simp
  rw [this, pyStrip_concatNl]

/-! ### Dictionary lemmas -/

theorem dictGet_eq_none_iff (store : Store) (k : String) :
    dictGet store k = none ↔ ∀ kv ∈ store, kv.1 ≠ k := by
  induction store with
  | nil => simp [dictGet]
  | cons hd rest ih =>
    by_cases h : hd.1 = k
    · simp [dictGet, h]
    · simp [dictGet, h, ih]

theorem dictGet_of_mem_nodup (store : Store) (kv : String × SessionRecord)
    (hnd : (store.map Prod.fst).Nodup) (hmem : kv ∈ store) :
    dictGet store kv.1 = some kv.2 := by
  induction store with
  | nil => cases hmem
  | cons hd rest ih =>
    rw [List.map_cons, List.nodup_cons] at hnd
    rcases List.mem_cons.mp hmem with h | h
    · subst h; simp [dictGet]
    · have hne : hd.1 ≠ kv.1 := by
        intro he
        exact hnd.1 (he ▸ List.mem_map_of_mem Prod.fst h)
      simp only [dictGet, if_neg hne]
      exact ih hnd.2 h

theorem mem_eq_of_nodup_keys (store : Store) (kv kv' : String × SessionRecord)
    (hnd : (store.map Prod.fst).Nodup) (h1 : kv ∈ store) (h2 : kv' ∈ store)
    (hk : kv.1 = kv'.1) : kv = kv' := by
  have g1 := dictGet_of_mem_nodup store kv hnd h1
  have g2 := dictGet_of_mem_nodup store kv' hnd h2
  rw [hk, g2] at g1
  exact Prod.ext hk (Option.some.inj g1).symm

theorem filter_ne_cons (sid : String) (hd : String × SessionRecord) (rest : Store) :
    (hd :: rest).filter (fun kv => decide (kv.1 ≠ sid)) =
      if hd.1 = sid then rest.filter (fun kv => decide (kv.1 ≠ sid))
      else hd :: rest.filter (fun kv => decide (kv.1 ≠ sid)) := by
  by_cases h : hd.1 = sid <;> simp [List.filter_cons, h]

theorem dictGet_filter_ne (store : Store) (k sid : String) (h : k ≠ sid) :
    dictGet (store.filter (fun kv => decide (kv.1 ≠ sid))) k = dictGet store k := by
  induction store with
  | nil => rfl
  | cons hd rest ih =>
    rw [filter_ne_cons]
    by_cases hh : hd.1 = sid
    · rw [if_pos hh]
      have hk : hd.1 ≠ k := fun he => h (he ▸ hh)
      rw [show dictGet (hd :: rest) k = dictGet rest k from by
        simp only [dictGet, if_neg hk]]
      exact ih
    · rw [if_neg hh]
      by_cases hk : hd.1 = k
      · simp only [dictGet, if_pos hk]
      · simp only [dictGet, if_neg hk]
        exact ih

theorem dictGet_filter_of_pred (store : Store) (p : String × SessionRecord → Bool)
    (k : String) (v : SessionRecord) (h : dictGet store k = some v)
    (hp : p (k, v) = true) : dictGet (store.filter p) k = some v := by
  induction store with
  | nil => cases h
  | cons hd rest ih =>
    by_cases hh : hd.1 = k
    · have hv : hd.2 = v := by simpa [dictGet, hh] using h
      have hd_eq : hd = (k, v) := Prod.ext hh hv
      subst hd_eq
      simp [List.filter_cons, hp, dictGet]
    · simp only [dictGet, if_neg hh] at h
      by_cases hph : p hd = true
      · simp [List.filter_cons, hph, dictGet, hh, ih h]
      · simp only [List.filter_cons, Bool.not_eq_true] at hph ⊢
        rw [hph]
        simp only [Bool.false_eq_true, if_false]
        exact ih h

theorem dictGet_insert_self (store : Store) (k : String) (v : SessionRecord) :
    dictGet (dictInsert store k v) k = some v := by
  simp [dictInsert, dictGet]

theorem mem_dictInsert (store : Store) (k : String) (v : SessionRecord)
    (kv : String × SessionRecord) :
    kv ∈ dictInsert store k v ↔ kv = (k, v) ∨ (kv ∈ store ∧ kv.1 ≠ k) := by
  simp [dictInsert, List.mem_filter]

/-! ### File-system lemmas -/

theorem saveFile_removeFails (fs : FileSys) (p : String) :
    (saveFile fs p).removeFails = fs.removeFails := by
  unfold saveFile; split <;> rfl

theorem mem_saveFile_self (fs : FileSys) (p : String) : p ∈ (saveFile fs p).files := by
  unfold saveFile; split
  · assumption
  · exact List.mem_cons_self p fs.files

theorem tryRemove_removeFails (fs : FileSys) (p : String) :
    (tryRemove fs p).removeFails = fs.removeFails := by
  unfold tryRemove osRemove
  by_cases h1 : p ∈ fs.files <;> by_cases h2 : p ∈ fs.removeFails <;>
    simp [h1, h2]

theorem mem_of_mem_tryRemove (fs : FileSys) (p q : String)
    (h : q ∈ (tryRemove fs p).files) : q ∈ fs.files := by
  unfold tryRemove osRemove at h
  by_cases h1 : p ∈ fs.files <;> by_cases h2 : p ∈ fs.removeFails <;>
    simp [h1, h2] at h
  · exact h
  · exact h.1
  · exact h
  · exact h

theorem tryRemove_self_not_mem (fs : FileSys) (p : String)
    (h : p ∉ fs.removeFails) : p ∉ (tryRemove fs p).files := by
  unfold tryRemove osRemove
  by_cases h1 : p ∈ fs.files
  · simp [h1, h]
  · simp [h1]

theorem foldl_tryRemove_not_mem (recs : List SessionRecord) :
    ∀ (fs : FileSys) (p : String), p ∉ fs.files →
      p ∉ (recs.foldl (fun f r => tryRemove f r.file_path) fs).files := by
  induction recs with
  | nil => intro fs p h; exact h
  | cons x xs ih =>
    intro fs p h
    simp only [List.foldl_cons]
    exact ih _ p (fun hm => h (mem_of_mem_tryRemove _ _ _ hm))

theorem foldl_tryRemove_removes (recs : List SessionRecord) :
    ∀ (fs : FileSys) (r : SessionRecord), r ∈ recs →
      r.file_path ∉ fs.removeFails →
      r.file_path ∉ (recs.foldl (fun f x => tryRemove f x.file_path) fs).files := by
  induction recs with
  | nil => intro fs r h; cases h
  | cons x xs ih =>
    intro fs r hmem hfail
    simp only [List.foldl_cons]
    rcases List.mem_cons.mp hmem with h | h
    · subst h
      exact foldl_tryRemove_not_mem xs _ _ (tryRemove_self_not_mem fs r.file_path hfail)
    · exact ih _ r h (by rw [tryRemove_removeFails]; exact hfail)

/-! ### Sweep lemmas -/

theorem filterMap_congr_mem {α β : Type} (f g : α → Option β) (l : List α)
    (h : ∀ x ∈ l, f x = g x) : l.filterMap f = l.filterMap g := by
  induction l with
  | nil => rfl
  | cons a l ih =>
    simp only [List.filterMap_cons, h a (List.mem_cons_self a l)]
    rw [ih (fun x hx => h x (List.mem_cons_of_mem a hx))]

theorem sweepLoop_store (ids : List String) : ∀ (store : Store) (fs : FileSys),
    (sweepLoop ids store fs).1 = store.filter (fun kv => decide (kv.1 ∉ ids)) := by
  induction ids with
  | nil => intro store fs; simp [sweepLoop]
  | cons sid rest ih =>
    intro store fs
    cases h : dictGet store sid with
    | some r =>
      simp only [sweepLoop, h]
      rw [ih, List.filter_filter]
      apply List.filter_congr
      intro kv _
      by_cases h1 : kv.1 = sid <;> by_cases h2 : kv.1 ∈ rest <;> simp [h1, h2]
    | none =>
      simp only [sweepLoop, h]
      rw [ih]
      apply List.filter_congr
      intro kv hkv
      have hne : kv.1 ≠ sid := (dictGet_eq_none_iff store sid).mp h kv hkv
      by_cases h2 : kv.1 ∈ rest <;> simp [hne, h2]

theorem sweepLoop_fs (ids : List String) : ∀ (store : Store) (fs : FileSys),
    ids.Nodup →
    (sweepLoop ids store fs).2 =
      (ids.filterMap (dictGet store)).foldl (fun f r => tryRemove f r.file_path) fs := by
  induction ids with
  | nil => intro store fs _; rfl
  | cons sid rest ih =>
    intro store fs hnd
    rw [List.nodup_cons] at hnd
    cases h : dictGet store sid with
    | some r =>
      simp only [sweepLoop, h, List.filterMap_cons, List.foldl_cons]
      rw [ih _ _ hnd.2]
      congr 1
      apply filterMap_congr_mem
      intro x hx
      exact dictGet_filter_ne store x sid (fun he => hnd.1 (he ▸ hx))
    | none =>
      simp only [sweepLoop, h, List.filterMap_cons]
      exact ih _ _ hnd.2

theorem mem_expiredIds (now : Nat) (store : Store) (sid : String) :
    sid ∈ expiredIds now store ↔
      ∃ kv, kv ∈ store ∧ kv.1 = sid ∧ sessionExpired now kv.2.timestamp = true := by
  simp only [expiredIds, List.mem_map, List.mem_filter]
  constructor
  · rintro ⟨kv, ⟨hmem, hexp⟩, hfst⟩
    exact ⟨kv, hmem, hfst, hexp⟩
  · rintro ⟨kv, hmem, hfst, hexp⟩
    exact ⟨kv, ⟨hmem, hexp⟩, hfst⟩

theorem expiredIds_nodup (now : Nat) (store : Store)
    (hnd : (store.map Prod.fst).Nodup) : (expiredIds now store).Nodup :=
  List.Nodup.sublist (List.Sublist.map Prod.fst (List.filter_sublist store)) hnd

theorem cleanup_store_eq (now : Nat) (store : Store) (fs : FileSys) :
    (cleanup_old_sessions now store fs).1 =
      store.filter (fun kv => decide (kv.1 ∉ expiredIds now store)) := by
  simp only [cleanup_old_sessions]
  exact sweepLoop_store _ store fs

theorem cleanup_fs_eq (now : Nat) (store : Store) (fs : FileSys)
    (hnd : (store.map Prod.fst).Nodup) :
    (cleanup_old_sessions now store fs).2.1 =
      ((expiredIds now store).filterMap (dictGet store)).foldl
        (fun f r => tryRemove f r.file_path) fs := by
  simp only [cleanup_old_sessions]
  exact sweepLoop_fs _ store fs (expiredIds_nodup now store hnd)

theorem cleanup_removed_eq (now : Nat) (store : Store) (fs : FileSys) :
    (cleanup_old_sessions now store fs).2.2 = expiredIds now store := rfl

/-! ### `ask_question` lemmas -/

theorem askResponse_ne_empty (res : Except String (List String)) :
    askResponse res ≠ "" := by
  cases res with
  | error e => exact (by decide : fallbackError ≠ "")
  | ok chunks =>
    simp only [askResponse]
    by_cases h : pyStrip (String.join chunks) = ""
    · rw [if_pos h]; exact (by decide : fallbackEmpty ≠ "")
    · rw [if_neg h]
      intro hc
      exact h (hc ▸ pyStrip_empty)

theorem ask_empty_query (data : AskReq) (now : Nat)
    (agentRun : String → Except String (List String)) (store : Store)
    (hq : pyStrip (data.query.getD "") = "") :
    ask_question (some data) now agentRun store =
      ({ status := 400, error := some "No question provided" }, store) := by
  simp [ask_question, hq]

theorem ask_empty_sid (data : AskReq) (now : Nat)
    (agentRun : String → Except String (List String)) (store : Store)
    (hq : pyStrip (data.query.getD "") ≠ "")
    (hs : pyStrip (data.session_id.getD "") = "") :
    ask_question (some data) now agentRun store =
      ({ status := 400, error := some "No session ID provided" }, store) := by
  simp [ask_question, if_neg hq, hs]

theorem ask_not_found (data : AskReq) (now : Nat)
    (agentRun : String → Except String (List String)) (store : Store)
    (hq : pyStrip (data.query.getD "") ≠ "")
    (hs : pyStrip (data.session_id.getD "") ≠ "")
    (hget : dictGet store (pyStrip (data.session_id.getD "")) = none) :
    ask_question (some data) now agentRun store =
      ({ status := 400,
         error := some "Session not found or expired. Please upload your PDF again." },
        store) := by
  simp only [ask_question, if_neg hq, if_neg hs, hget]

theorem ask_success_eq (data : AskReq) (now : Nat)
    (agentRun : String → Except String (List String)) (store : Store)
    (info : SessionRecord)
    (hq : pyStrip (data.query.getD "") ≠ "")
    (hs : pyStrip (data.session_id.getD "") ≠ "")
    (hget : dictGet store (pyStrip (data.session_id.getD "")) = some info) :
    ask_question (some data) now agentRun store =
      ({ status := 200,
         response := some (askResponse
           (agentRun (mkPrompt info.text (pyStrip (data.query.getD ""))))),
         filename := some info.filename },
        dictInsert store (pyStrip (data.session_id.getD ""))
          { info with timestamp := now }) := by
  simp only [ask_question, if_neg hq, if_neg hs, hget, askResponse]

/-! ### `upload_pdf` lemmas -/

theorem upload_success_eq (file : UploadedFile) (sid : String) (now : Nat)
    (store : Store) (fs : FileSys)
    (h1 : file.filename ≠ "") (h2 : allowed_file file.filename = true)
    (text : String) (hex : extract_text_from_pdf file.content = Except.ok text)
    (ht : text ≠ "") :
    upload_pdf (some file) sid now store fs =
      ({ status := 200,
         message := some "PDF uploaded and processed successfully",
         session_id := some sid, filename := some file.filename,
         text_length := some text.length },
       dictInsert store sid
         { text := text, file_path := uploadPath sid file,
           filename := file.filename, timestamp := now },
       saveFile fs (uploadPath sid file)) := by
  simp only [upload_pdf, if_neg h1, h2, not_true_eq_false, Bool.false_eq_true,
    if_false, hex, if_neg ht, uploadPath]

theorem upload_extract_error_eq (file : UploadedFile) (sid : String) (now : Nat)
    (store : Store) (fs : FileSys)
    (h1 : file.filename ≠ "") (h2 : allowed_file file.filename = true)
    (e : String) (hex : extract_text_from_pdf file.content = Except.error e)
    (hrm : uploadPath sid file ∉ fs.removeFails) :
    upload_pdf (some file) sid now store fs =
      ({ status := 400, error := some ("Failed to process PDF: " ++ e) },
       store,
       { files := (saveFile fs (uploadPath sid file)).files.filter
           (fun q => decide (q ≠ uploadPath sid file)),
         removeFails := fs.removeFails }) := by
  have hmem : uploadPath sid file ∈ (saveFile fs (uploadPath sid file)).files :=
    mem_saveFile_self fs _
  have hrm1 : uploadPath sid file ∉ (saveFile fs (uploadPath sid file)).removeFails := by
    rw [saveFile_removeFails]; exact hrm
  simp only [uploadPath] at hmem hrm
  simp only [upload_pdf, if_neg h1, h2, not_true_eq_false, Bool.false_eq_true,
    if_false, hex, eq_self_iff_true, if_true, uploadPath]
  rw [if_pos hmem]
  simp only [osRemove, saveFile_removeFails]
  rw [if_neg hrm]

theorem upload_empty_text_eq (file : UploadedFile) (sid : String) (now : Nat)
    (store : Store) (fs : FileSys)
    (h1 : file.filename ≠ "") (h2 : allowed_file file.filename = true)
    (hex : extract_text_from_pdf file.content = Except.ok "")
    (hrm : uploadPath sid file ∉ fs.removeFails) :
    upload_pdf (some file) sid now store fs =
      ({ status := 400, error := some "No text could be extracted from the PDF" },
       store,
       { files := (saveFile fs (uploadPath sid file)).files.filter
           (fun q => decide (q ≠ uploadPath sid file)),
         removeFails := fs.removeFails }) := by
  have hmem : uploadPath sid file ∈ (saveFile fs (uploadPath sid file)).files :=
    mem_saveFile_self fs _
  have hrm1 : uploadPath sid file ∉ (saveFile fs (uploadPath sid file)).removeFails := by
    rw [saveFile_removeFails]; exact hrm
  simp only [uploadPath] at hmem hrm
  simp only [upload_pdf, if_neg h1, h2, not_true_eq_false, Bool.false_eq_true,
    if_false, hex, eq_self_iff_true, if_true, uploadPath]
  rw [if_pos hmem]
  simp only [osRemove, saveFile_removeFails]
  rw [if_neg hrm]

theorem upload_remove_failure_500 (file : UploadedFile) (sid : String) (now : Nat)
    (store : Store) (fs : FileSys)
    (h1 : file.filename ≠ "") (h2 : allowed_file file.filename = true)
    (e : String) (hex : extract_text_from_pdf file.content = Except.error e)
    (hrm : uploadPath sid file ∈ fs.removeFails) :
    upload_pdf (some file) sid now store fs =
      ({ status := 500,
         error := some ("Upload failed: " ++
           ("OSError: cannot remove " ++ uploadPath sid file)) },
       store, saveFile fs (uploadPath sid file)) := by
  have hmem : uploadPath sid file ∈ (saveFile fs (uploadPath sid file)).files :=
    mem_saveFile_self fs _
  have hrm1 : uploadPath sid file ∈ (saveFile fs (uploadPath sid file)).removeFails := by
    rw [saveFile_removeFails]; exact hrm
  simp only [uploadPath] at hmem hrm
  simp only [upload_pdf, if_neg h1, h2, not_true_eq_false, Bool.false_eq_true,
    if_false, hex, uploadPath]
  rw [if_pos hmem]
  simp only [osRemove, saveFile_removeFails]
  rw [if_pos hrm]

theorem upload_store_unchanged_or_insert (req : Option UploadedFile) (sid : String)
    (now : Nat) (store : Store) (fs : FileSys) :
    (upload_pdf req sid now store fs).2.1 = store ∨
    ∃ file text, req = some file ∧ text ≠ "" ∧
      (upload_pdf req sid now store fs).2.1 =
        dictInsert store sid
          { text := text, file_path := uploadPath sid file,
            filename := file.filename, timestamp := now } := by
  cases req with
  | none => left; rfl
  | some file =>
    by_cases h1 : file.filename = ""
    · left; simp [upload_pdf, h1]
    · by_cases h2 : allowed_file file.filename = true
      · cases hex : extract_text_from_pdf file.content with
        | error e =>
          left
          simp only [upload_pdf, if_neg h1, h2, not_true_eq_false,
            Bool.false_eq_true, if_false, hex]
          split
          · split <;> rfl
          · rfl
        | ok text =>
          by_cases ht : text = ""
          · left
            simp only [upload_pdf, if_neg h1, h2, not_true_eq_false,
              Bool.false_eq_true, if_false, hex, if_pos ht]
            split
            · split <;> rfl
            · rfl
          · right
            refine ⟨file, text, rfl, ht, ?_⟩
            rw [upload_success_eq file sid now store fs h1 h2 text hex ht]
      · left
        simp only [Bool.not_eq_true] at h2
        simp [upload_pdf, h1, h2]

/-! ### Claim theorems -/

/-- C4: for every `POST /ask` with a valid session id and a non-empty
query, the endpoint returns HTTP 200 with a non-empty response string,
whatever the agent call does: a raised error is replaced by the fixed
error fallback, whitespace-only output by the fixed empty-output
fallback, and no agent outcome reaches the HTTP layer as an exception. -/
theorem ask_always_answers (data : AskReq) (now : Nat)
    (agentRun : String → Except String (List String)) (store : Store)
    (info : SessionRecord)
    (hq : pyStrip (data.query.getD "") ≠ "")
    (hs : pyStrip (data.session_id.getD "") ≠ "")
    (hget : dictGet store (pyStrip (data.session_id.getD "")) = some info) :
    (ask_question (some data) now agentRun store).1.status = 200 ∧
    ∃ r, (ask_question (some data) now agentRun store).1.response = some r ∧
      r ≠ "" := by
  rw [ask_success_eq data now agentRun store info hq hs hget]
  exact ⟨rfl, _, rfl, askResponse_ne_empty _⟩

/-- Witness for `ask_always_answers`: a concrete session answered both
under an agent failure and under whitespace-only agent output. -/
theorem ask_always_answers_witness :
    (ask_question (some ⟨some "What is Hemoglobin?", some "sid1"⟩) 60
      (fun _ => Except.error "quota exceeded")
      [("sid1", { text := "Hemoglobin 9.2", file_path := "uploads/sid1_r.pdf",
                  filename := "r.pdf", timestamp := 0 })]).1.status = 200 ∧
    ∃ r, (ask_question (some ⟨some "What is Hemoglobin?", some "sid1"⟩) 60
      (fun _ => Except.error "quota exceeded")
      [("sid1", { text := "Hemoglobin 9.2", file_path := "uploads/sid1_r.pdf",
                  filename := "r.pdf", timestamp := 0 })]).1.response = some r ∧
      r ≠ "" :=
  ask_always_answers ⟨some "What is Hemoglobin?", some "sid1"⟩ 60
    (fun _ => Except.error "quota exceeded")
    [("sid1", { text := "Hemoglobin 9.2", file_path := "uploads/sid1_r.pdf",
                filename := "r.pdf", timestamp := 0 })]
    { text := "Hemoglobin 9.2", file_path := "uploads/sid1_r.pdf",
      filename := "r.pdf", timestamp := 0 }
    (by decide) (by decide) (by decide)

/-- C8: the extractor equals its specification: pages are visited in
order, pages whose extracted text is undefined or empty are skipped, the
kept texts are concatenated with a newline separator and the result is
trimmed; a PDF without extractable text yields the empty string rather
than a failure; a parse failure is surfaced as an error wrapping the
underlying message. -/
theorem extract_matches_spec :
    (∀ pages, extract_text_from_pdf (Except.ok pages) =
      Except.ok (extract_spec pages)) ∧
    (∀ e, extract_text_from_pdf (Except.error e) =
      Except.error ("Error extracting text from PDF: " ++ e)) ∧
    (∀ pages, (pages.filterMap id).filter (fun t => t ≠ "") = [] →
      extract_text_from_pdf (Except.ok pages) = Except.ok "") := by
  refine ⟨extract_ok_eq_spec, fun e => rfl, fun pages h => ?_⟩
  rw [extract_ok_eq_spec pages]
  unfold extract_spec
  rw [h]
  rfl

/-- Witness for `extract_matches_spec`: concrete evaluations, including a
text-free PDF. -/
theorem extract_matches_spec_witness :
    extract_text_from_pdf (Except.ok [some "a", none, some "", some "b"]) =
      Except.ok (extract_spec [some "a", none, some "", some "b"]) ∧
    extract_text_from_pdf (Except.ok [(none : Option String), some ""]) =
      Except.ok "" :=
  ⟨extract_matches_spec.1 [some "a", none, some "", some "b"],
   extract_matches_spec.2.2 [none, some ""] (by decide)⟩

/-- C9: `GET /session/<id>` and `GET /health` never modify the session
store: no timestamp refresh, no sweep, no removal — the store after
either call equals the store before it. -/
theorem read_endpoints_pure (session_id : String) (store : Store) (now : Nat) :
    (get_session_info session_id store).2 = store ∧
    (health_check now store).2 = store := by
  constructor
  · unfold get_session_info
    cases dictGet store session_id <;> rfl
  · rfl

/-- C10: an `/ask` body whose `query` is whitespace-only is rejected with
the 400 no-question error, and one with a non-blank query but a
whitespace-only `session_id` with the 400 no-session-id error; the
values are stripped before validation, and the session store is left
untouched in both cases. -/
theorem ask_whitespace_fields_rejected :
    (∀ (store : Store) (now : Nat)
       (agentRun : String → Except String (List String))
       (q : String) (sid : Option String),
      (∀ c ∈ q.data, pyIsSpace c = true) →
      ask_question (some ⟨some q, sid⟩) now agentRun store =
        ({ status := 400, error := some "No question provided" }, store)) ∧
    (∀ (store : Store) (now : Nat)
       (agentRun : String → Except String (List String))
       (q s : String),
      pyStrip q ≠ "" → (∀ c ∈ s.data, pyIsSpace c = true) →
      ask_question (some ⟨some q, some s⟩) now agentRun store =
        ({ status := 400, error := some "No session ID provided" }, store)) := by
  constructor
  · intro store now agentRun q sid hq
    exact ask_empty_query ⟨some q, sid⟩ now agentRun store (pyStrip_all_space q hq)
  · intro store now agentRun q s hq hs
    exact ask_empty_sid ⟨some q, some s⟩ now agentRun store hq
      (pyStrip_all_space s hs)

/-- Witness for `ask_whitespace_fields_rejected`: blank-only fields on a
nonempty store. -/
theorem ask_whitespace_fields_witness :
    ask_question (some ⟨some " \t ", some "sid1"⟩) 60
      (fun _ => Except.ok ["ok"])
      [("sid1", { text := "T", file_path := "uploads/sid1_r.pdf",
                  filename := "r.pdf", timestamp := 0 })] =
      ({ status := 400, error := some "No question provided" },
        [("sid1", { text := "T", file_path := "uploads/sid1_r.pdf",
                    filename := "r.pdf", timestamp := 0 })]) ∧
    ask_question (some ⟨some "What?", some " \n"⟩) 60
      (fun _ => Except.ok ["ok"])
      [("sid1", { text := "T", file_path := "uploads/sid1_r.pdf",
                  filename := "r.pdf", timestamp := 0 })] =
      ({ status := 400, error := some "No session ID provided" },
        [("sid1", { text := "T", file_path := "uploads/sid1_r.pdf",
                    filename := "r.pdf", timestamp := 0 })]) :=
  ⟨ask_whitespace_fields_rejected.1 _ 60 _ " \t " (some "sid1") (by decide),
   ask_whitespace_fields_rejected.2 _ 60 _ "What?" " \n" (by decide) (by decide)⟩

/-- C1, counterexample: `ask_question` checks only membership in
`session_data`, never the timestamp, so a session whose timestamp is 31
minutes old but which the periodic sweep has not yet removed is answered
with HTTP 200 — refuting the claim that an expired session is never
answered. -/
theorem ask_expired_unswept_answered :
    sessionExpired 1860 0 = true ∧
    (ask_question (some ⟨some "What does this mean?", some "sid1"⟩) 1860
      (fun _ => Except.ok ["ok"])
      [("sid1", { text := "Hemoglobin 9.2", file_path := "uploads/sid1_r.pdf",
                  filename := "r.pdf", timestamp := 0 })]).1.status = 200 ∧
    (ask_question (some ⟨some "What does this mean?", some "sid1"⟩) 1860
      (fun _ => Except.ok ["ok"])
      [("sid1", { text := "Hemoglobin 9.2", file_path := "uploads/sid1_r.pdf",
                  filename := "r.pdf", timestamp := 0 })]).1.error = none := by
  refine ⟨by decide, ?_, ?_⟩ <;> decide

/-- C1, amended: an `/ask` whose session id is not present in the store —
never issued, or already removed by a cleanup sweep — receives the 400
"Session not found or expired" error and the store is unchanged; in
particular an expired session is rejected once a sweep at the current
time has run.  (Expiry alone does not suffice: see
`ask_expired_unswept_answered`.) -/
theorem ask_unknown_or_swept_rejected :
    (∀ (data : AskReq) (now : Nat)
       (agentRun : String → Except String (List String)) (store : Store),
      pyStrip (data.query.getD "") ≠ "" →
      pyStrip (data.session_id.getD "") ≠ "" →
      dictGet store (pyStrip (data.session_id.getD "")) = none →
      ask_question (some data) now agentRun store =
        ({ status := 400,
           error := some "Session not found or expired. Please upload your PDF again." },
          store)) ∧
    (∀ (now : Nat) (store : Store) (fs : FileSys)
       (kv : String × SessionRecord) (q : String)
       (agentRun : String → Except String (List String)),
      kv ∈ store → sessionExpired now kv.2.timestamp = true →
      pyStrip q ≠ "" → pyStrip kv.1 = kv.1 → kv.1 ≠ "" →
      ask_question (some ⟨some q, some kv.1⟩) now agentRun
          (cleanup_old_sessions now store fs).1 =
        ({ status := 400,
           error := some "Session not found or expired. Please upload your PDF again." },
          (cleanup_old_sessions now store fs).1)) := by
  constructor
  · intro data now agentRun store hq hs hget
    exact ask_not_found data now agentRun store hq hs hget
  · intro now store fs kv q agentRun hmem hexp hq hsid hne
    have hin : kv.1 ∈ expiredIds now store :=
      (mem_expiredIds now store kv.1).mpr ⟨kv, hmem, rfl, hexp⟩
    have hnone : dictGet (cleanup_old_sessions now store fs).1 kv.1 = none := by
      rw [cleanup_store_eq]
      rw [dictGet_eq_none_iff]
      intro kv' hkv'
      have h2 := (List.mem_filter.mp hkv').2
      rw [decide_eq_true_eq] at h2
      intro hfst
      exact h2 (hfst ▸ hin)
    have hq' : pyStrip ((⟨some q, some kv.1⟩ : AskReq).query.getD "") ≠ "" := hq
    have hs' : pyStrip ((⟨some q, some kv.1⟩ : AskReq).session_id.getD "") ≠ "" := by
      show pyStrip kv.1 ≠ ""
      rw [hsid]; exact hne
    have hget' : dictGet (cleanup_old_sessions now store fs).1
        (pyStrip ((⟨some q, some kv.1⟩ : AskReq).session_id.getD "")) = none := by
      show dictGet (cleanup_old_sessions now store fs).1 (pyStrip kv.1) = none
      rw [hsid]; exact hnone
    exact ask_not_found _ now agentRun _ hq' hs' hget'

/-- Witness for `ask_unknown_or_swept_rejected`: a never-issued id on an
empty store, and an expired session rejected after a sweep at the same
instant. -/
theorem ask_unknown_or_swept_witness :
    ask_question (some ⟨some "Hi", some "nope"⟩) 60
      (fun _ => Except.ok ["ok"]) [] =
      ({ status := 400,
         error := some "Session not found or expired. Please upload your PDF again." },
        []) ∧
    ask_question (some ⟨some "Hi", some "sid1"⟩) 1860
      (fun _ => Except.ok ["ok"])
      (cleanup_old_sessions 1860
        [("sid1", { text := "T", file_path := "uploads/sid1_r.pdf",
                    filename := "r.pdf", timestamp := 0 })] ⟨[], []⟩).1 =
      ({ status := 400,
         error := some "Session not found or expired. Please upload your PDF again." },
        (cleanup_old_sessions 1860
          [("sid1", { text := "T", file_path := "uploads/sid1_r.pdf",
                      filename := "r.pdf", timestamp := 0 })] ⟨[], []⟩).1) :=
  ⟨ask_unknown_or_swept_rejected.1 ⟨some "Hi", some "nope"⟩ 60 _ []
     (by decide) (by decide) (by decide),
   ask_unknown_or_swept_rejected.2 1860
     [("sid1", { text := "T", file_path := "uploads/sid1_r.pdf",
                 filename := "r.pdf", timestamp := 0 })] ⟨[], []⟩
     ("sid1", { text := "T", file_path := "uploads/sid1_r.pdf",
                filename := "r.pdf", timestamp := 0 })
     "Hi" _ (by decide) (by decide) (by decide) (by decide) (by decide)⟩

/-- C6: a successful `/ask` on an existing session rewrites that
session's timestamp to the current time; consequently a session uploaded
at minute 0, touched by `/ask` at minute 29 and asked again at minute 50
— with a cleanup sweep running in between at minute 50 — is still found
and answered, because only 21 minutes have elapsed since the touch. -/
theorem ask_touch_resets_expiry :
    (∀ (data : AskReq) (now : Nat)
       (agentRun : String → Except String (List String)) (store : Store)
       (info : SessionRecord),
      pyStrip (data.query.getD "") ≠ "" →
      pyStrip (data.session_id.getD "") ≠ "" →
      dictGet store (pyStrip (data.session_id.getD "")) = some info →
      (ask_question (some data) now agentRun store).1.status = 200 ∧
      dictGet (ask_question (some data) now agentRun store).2
          (pyStrip (data.session_id.getD "")) =
        some { info with timestamp := now }) ∧
    (∀ (store : Store) (fs : FileSys) (info : SessionRecord)
       (agent1 agent2 : String → Except String (List String)),
      dictGet store "sid1" = some info →
      (ask_question (some ⟨some "What does this mean?", some "sid1"⟩) (50 * 60)
          agent2
          (cleanup_old_sessions (50 * 60)
            (ask_question (some ⟨some "What does this mean?", some "sid1"⟩)
              (29 * 60) agent1 store).2 fs).1).1.status = 200) := by
  have hq : pyStrip ((⟨some "What does this mean?", some "sid1"⟩ : AskReq).query.getD "") ≠ "" := by
    decide
  have hsid : pyStrip ((⟨some "What does this mean?", some "sid1"⟩ : AskReq).session_id.getD "") = "sid1" := by
    decide
  constructor
  · intro data now agentRun store info hq' hs' hget
    rw [ask_success_eq data now agentRun store info hq' hs' hget]
    exact ⟨rfl, dictGet_insert_self _ _ _⟩
  · intro store fs info agent1 agent2 hget
    have hs' : pyStrip ((⟨some "What does this mean?", some "sid1"⟩ : AskReq).session_id.getD "") ≠ "" := by
      rw [hsid]; decide
    have hget29 : dictGet store
        (pyStrip ((⟨some "What does this mean?", some "sid1"⟩ : AskReq).session_id.getD "")) =
        some info := by rw [hsid]; exact hget
    rw [ask_success_eq _ (29 * 60) agent1 store info hq hs' hget29]
    rw [hsid]
    have hget1 : dictGet
        (dictInsert store "sid1" { info with timestamp := 29 * 60 }) "sid1" =
        some { info with timestamp := 29 * 60 } := dictGet_insert_self _ _ _
    have hnotin : "sid1" ∉ expiredIds (50 * 60)
        (dictInsert store "sid1" { info with timestamp := 29 * 60 }) := by
      intro hin
      rcases (mem_expiredIds _ _ _).mp hin with ⟨kv, hkvmem, hfst, hexp⟩
      rcases (mem_dictInsert _ _ _ _).mp hkvmem with h | h
      · subst h
        have hfalse : ¬ (sessionExpired (50 * 60) (29 * 60) = true) := by decide
        exact hfalse hexp
      · exact h.2 hfst
    have hget2 : dictGet
        (cleanup_old_sessions (50 * 60)
          (dictInsert store "sid1" { info with timestamp := 29 * 60 }) fs).1
        "sid1" = some { info with timestamp := 29 * 60 } := by
      rw [cleanup_store_eq]
      exact dictGet_filter_of_pred _ _ _ _ hget1 (by
        rw [decide_eq_true_eq]; exact hnotin)
    have hget2' : dictGet
        (cleanup_old_sessions (50 * 60)
          (dictInsert store "sid1" { info with timestamp := 29 * 60 }) fs).1
        (pyStrip ((⟨some "What does this mean?", some "sid1"⟩ : AskReq).session_id.getD "")) =
        some { info with timestamp := 29 * 60 } := by rw [hsid]; exact hget2
    rw [ask_success_eq _ (50 * 60) agent2 _ _ hq hs' hget2']

/-- Witness for `ask_touch_resets_expiry`: a concrete store exercising
both the timestamp rewrite and the minute-29 / minute-50 scenario. -/
theorem ask_touch_witness :
    ((ask_question (some ⟨some "Hi", some "sid1"⟩) 1740
        (fun _ => Except.ok ["ok"])
        [("sid1", { text := "T", file_path := "uploads/sid1_r.pdf",
                    filename := "r.pdf", timestamp := 0 })]).1.status = 200 ∧
      dictGet (ask_question (some ⟨some "Hi", some "sid1"⟩) 1740
          (fun _ => Except.ok ["ok"])
          [("sid1", { text := "T", file_path := "uploads/sid1_r.pdf",
                      filename := "r.pdf", timestamp := 0 })]).2 "sid1" =
        some { text := "T", file_path := "uploads/sid1_r.pdf",
               filename := "r.pdf", timestamp := 1740 }) ∧
    (ask_question (some ⟨some "What does this mean?", some "sid1"⟩) (50 * 60)
        (fun _ => Except.ok ["ok"])
        (cleanup_old_sessions (50 * 60)
          (ask_question (some ⟨some "What does this mean?", some "sid1"⟩)
            (29 * 60) (fun _ => Except.ok ["ok"])
            [("sid1", { text := "T", file_path := "uploads/sid1_r.pdf",
                        filename := "r.pdf", timestamp := 0 })]).2
          ⟨["uploads/sid1_r.pdf"], []⟩).1).1.status = 200 :=
  ⟨ask_touch_resets_expiry.1 ⟨some "Hi", some "sid1"⟩ 1740
     (fun _ => Except.ok ["ok"])
     [("sid1", { text := "T", file_path := "uploads/sid1_r.pdf",
                 filename := "r.pdf", timestamp := 0 })]
     { text := "T", file_path := "uploads/sid1_r.pdf",
       filename := "r.pdf", timestamp := 0 }
     (by decide) (by decide) (by decide),
   ask_touch_resets_expiry.2
     [("sid1", { text := "T", file_path := "uploads/sid1_r.pdf",
                 filename := "r.pdf", timestamp := 0 })]
     ⟨["uploads/sid1_r.pdf"], []⟩
     { text := "T", file_path := "uploads/sid1_r.pdf",
       filename := "r.pdf", timestamp := 0 }
     (fun _ => Except.ok ["ok"]) (fun _ => Except.ok ["ok"]) (by decide)⟩

/-- C2, counterexample: `upload_pdf` contains no empty-file check; a
zero-byte `.pdf` upload (which `pdfplumber` fails to parse) is rejected
with the generic extraction-failure message, whose text does not report
an empty file. -/
theorem upload_zero_byte_not_empty_error :
    (upload_pdf (some zeroByteFile)
      "sid1" 1000 [] ⟨[], []⟩).1.status = 400 ∧
    (upload_pdf (some zeroByteFile)
      "sid1" 1000 [] ⟨[], []⟩).1.error =
      some "Failed to process PDF: Error extracting text from PDF: Is this really a PDF?" ∧
    strContainsSub
      (strToLower ((upload_pdf (some zeroByteFile)
        "sid1" 1000 [] ⟨[], []⟩).1.error.getD ""))
      "empty" = false ∧
    (upload_pdf (some zeroByteFile)
      "sid1" 1000 [] ⟨[], []⟩).2.1 = [] := by
  refine ⟨?_, ?_, ?_, ?_⟩ <;> decide

/-- C2, amended: a zero-byte upload with a `.pdf` filename is rejected
with a 400 and no session is created, but through the extraction-failure
path — `pdfplumber` cannot parse an empty stream — with the message
`Failed to process PDF: ...`, not a dedicated empty-file message (the
handler never inspects the file size; the just-saved file must also be
removable, else the unguarded `os.remove` turns the response into a
500). -/
theorem upload_zero_byte_amended (file : UploadedFile) (sid : String)
    (now : Nat) (store : Store) (fs : FileSys) (e : String)
    (hsize : file.size = 0)
    (h1 : file.filename ≠ "")
    (h2 : allowed_file file.filename = true)
    (hc : file.content = Except.error e)
    (hrm : uploadPath sid file ∉ fs.removeFails) :
    (upload_pdf (some file) sid now store fs).1.status = 400 ∧
    (upload_pdf (some file) sid now store fs).1.error =
      some ("Failed to process PDF: " ++
        ("Error extracting text from PDF: " ++ e)) ∧
    (upload_pdf (some file) sid now store fs).2.1 = store := by
  have hex : extract_text_from_pdf file.content =
      Except.error ("Error extracting text from PDF: " ++ e) := by
    rw [hc]; rfl
  rw [upload_extract_error_eq file sid now store fs h1 h2 _ hex hrm]
  exact ⟨rfl, rfl, rfl⟩

/-- Witness for `upload_zero_byte_amended`: a concrete zero-byte upload. -/
theorem upload_zero_byte_witness :
    (upload_pdf (some zeroByteFile)
      "sid1" 1000 [] ⟨[], []⟩).1.status = 400 ∧
    (upload_pdf (some zeroByteFile)
      "sid1" 1000 [] ⟨[], []⟩).1.error =
      some ("Failed to process PDF: " ++
        ("Error extracting text from PDF: " ++ "Is this really a PDF?")) ∧
    (upload_pdf (some zeroByteFile)
      "sid1" 1000 [] ⟨[], []⟩).2.1 = [] :=
  upload_zero_byte_amended
    zeroByteFile
    "sid1" 1000 [] ⟨[], []⟩ "Is this really a PDF?"
    rfl (by decide) (by decide) rfl (by decide)

/-- C3, counterexample: a successful upload stores and returns
`file.filename` verbatim; for the client-supplied name `../report.pdf`
the sanitized form is `report.pdf`, yet the session record and the JSON
response both carry the raw `../report.pdf`. -/
theorem upload_filename_unsanitized :
    (upload_pdf (some traversalFile)
      "sid1" 1000 [] ⟨[], []⟩).1.status = 200 ∧
    (upload_pdf (some traversalFile)
      "sid1" 1000 [] ⟨[], []⟩).1.filename = some "../report.pdf" ∧
    secure_filename "../report.pdf" = "report.pdf" ∧
    (upload_pdf (some traversalFile)
      "sid1" 1000 [] ⟨[], []⟩).1.filename ≠
      some (secure_filename "../report.pdf") ∧
    dictGet (upload_pdf (some traversalFile)
      "sid1" 1000 [] ⟨[], []⟩).2.1 "sid1" =
      some { text := "Hemoglobin 9.2 g/dL",
             file_path := "uploads/sid1_report.pdf",
             filename := "../report.pdf", timestamp := 1000 } := by
  refine ⟨?_, ?_, ?_, ?_, ?_⟩ <;> decide

/-- C3, amended: on a successful upload the session record and the JSON
response (and `GET /session/<id>` afterwards) carry the client-supplied
filename verbatim; only the on-disk path is built from
`secure_filename`. -/
theorem upload_filename_raw (file : UploadedFile) (sid : String) (now : Nat)
    (store : Store) (fs : FileSys)
    (h1 : file.filename ≠ "") (h2 : allowed_file file.filename = true)
    (text : String) (hex : extract_text_from_pdf file.content = Except.ok text)
    (ht : text ≠ "") :
    (upload_pdf (some file) sid now store fs).1.filename = some file.filename ∧
    dictGet (upload_pdf (some file) sid now store fs).2.1 sid =
      some { text := text, file_path := uploadPath sid file,
             filename := file.filename, timestamp := now } ∧
    (get_session_info sid
        (upload_pdf (some file) sid now store fs).2.1).1.filename =
      some file.filename ∧
    uploadPath sid file =
      UPLOAD_FOLDER ++ "/" ++ (sid ++ "_" ++ secure_filename file.filename) := by
  rw [upload_success_eq file sid now store fs h1 h2 text hex ht]
  refine ⟨rfl, dictGet_insert_self _ _ _, ?_, rfl⟩
  simp [get_session_info, dictGet_insert_self]

/-- Witness for `upload_filename_raw`: a concrete traversal-shaped
filename kept verbatim. -/
theorem upload_filename_raw_witness :
    (upload_pdf (some traversalFile)
      "sid1" 1000 [] ⟨[], []⟩).1.filename = some "../report.pdf" ∧
    dictGet (upload_pdf (some traversalFile)
      "sid1" 1000 [] ⟨[], []⟩).2.1 "sid1" =
      some { text := "Hemoglobin 9.2 g/dL",
             file_path := uploadPath "sid1"
               traversalFile,
             filename := "../report.pdf", timestamp := 1000 } ∧
    (get_session_info "sid1"
        (upload_pdf (some traversalFile)
          "sid1" 1000 [] ⟨[], []⟩).2.1).1.filename = some "../report.pdf" ∧
    uploadPath "sid1"
        traversalFile =
      UPLOAD_FOLDER ++ "/" ++ ("sid1" ++ "_" ++ secure_filename "../report.pdf") := by
  have h := upload_filename_raw
    traversalFile
    "sid1" 1000 [] ⟨[], []⟩ (by decide) (by decide)
    "Hemoglobin 9.2 g/dL" (by decide) (by decide)
  exact h

/-- C7, counterexample: the `os.remove` calls in `upload_pdf` are not
wrapped in a `try`: when removing the just-saved file fails after an
extraction failure, the exception escapes to the outer handler and the
response is a 500, not the claimed 400 with the failure ignored (the
file also remains on disk; no session is created either way). -/
theorem upload_remove_error_500 :
    (upload_pdf (some badXrefFile)
      "sid1" 1000 [] ⟨[], ["uploads/sid1_report.pdf"]⟩).1.status = 500 ∧
    ¬ (upload_pdf (some badXrefFile)
      "sid1" 1000 [] ⟨[], ["uploads/sid1_report.pdf"]⟩).1.status = 400 ∧
    "uploads/sid1_report.pdf" ∈ (upload_pdf (some badXrefFile)
      "sid1" 1000 [] ⟨[], ["uploads/sid1_report.pdf"]⟩).2.2.files ∧
    (upload_pdf (some badXrefFile)
      "sid1" 1000 [] ⟨[], ["uploads/sid1_report.pdf"]⟩).2.1 = [] := by
  refine ⟨?_, ?_, ?_, ?_⟩ <;> decide

/-- C7, amended: when extraction fails or yields empty text after the
file was saved, no session is created, and — provided the `os.remove`
call itself succeeds — the saved file is deleted and a 400 is returned;
if the removal raises, the exception propagates and the response is a
500 (still with no session).  In every case each session present in the
store has non-empty text. -/
theorem upload_partial_cleanup :
    (∀ (file : UploadedFile) (sid : String) (now : Nat) (store : Store)
       (fs : FileSys) (e : String),
      file.filename ≠ "" → allowed_file file.filename = true →
      extract_text_from_pdf file.content = Except.error e →
      uploadPath sid file ∉ fs.removeFails →
      (upload_pdf (some file) sid now store fs).1.status = 400 ∧
      (upload_pdf (some file) sid now store fs).2.1 = store ∧
      uploadPath sid file ∉ ((upload_pdf (some file) sid now store fs).2.2).files) ∧
    (∀ (file : UploadedFile) (sid : String) (now : Nat) (store : Store)
       (fs : FileSys),
      file.filename ≠ "" → allowed_file file.filename = true →
      extract_text_from_pdf file.content = Except.ok "" →
      uploadPath sid file ∉ fs.removeFails →
      (upload_pdf (some file) sid now store fs).1.status = 400 ∧
      (upload_pdf (some file) sid now store fs).2.1 = store ∧
      uploadPath sid file ∉ ((upload_pdf (some file) sid now store fs).2.2).files) ∧
    (∀ (req : Option UploadedFile) (sid : String) (now : Nat) (store : Store)
       (fs : FileSys),
      (∀ kv ∈ store, kv.2.text ≠ "") →
      ∀ kv ∈ (upload_pdf req sid now store fs).2.1, kv.2.text ≠ "") ∧
    (∀ (file : UploadedFile) (sid : String) (now : Nat) (store : Store)
       (fs : FileSys) (e : String),
      file.filename ≠ "" → allowed_file file.filename = true →
      extract_text_from_pdf file.content = Except.error e →
      uploadPath sid file ∈ fs.removeFails →
      (upload_pdf (some file) sid now store fs).1.status = 500 ∧
      (upload_pdf (some file) sid now store fs).2.1 = store) := by
  refine ⟨?_, ?_, ?_, ?_⟩
  · intro file sid now store fs e h1 h2 hex hrm
    rw [upload_extract_error_eq file sid now store fs h1 h2 e hex hrm]
    refine ⟨rfl, rfl, ?_⟩
    intro hmem
    have := (List.mem_filter.mp hmem).2
    simp at this
  · intro file sid now store fs h1 h2 hex hrm
    rw [upload_empty_text_eq file sid now store fs h1 h2 hex hrm]
    refine ⟨rfl, rfl, ?_⟩
    intro hmem
    have := (List.mem_filter.mp hmem).2
    simp at this
  · intro req sid now store fs hinv kv hkv
    rcases upload_store_unchanged_or_insert req sid now store fs with h | h
    · rw [h] at hkv
      exact hinv kv hkv
    · rcases h with ⟨file, text, _, hne, hstore⟩
      rw [hstore] at hkv
      rcases (mem_dictInsert _ _ _ _).mp hkv with h | h
      · rw [h]
        exact hne
      · exact hinv kv h.1
  · intro file sid now store fs e h1 h2 hex hrm
    rw [upload_remove_failure_500 file sid now store fs h1 h2 e hex hrm]
    exact ⟨rfl, rfl⟩

/-- Witness for `upload_partial_cleanup`: concrete uploads exercising the
failed-extraction cleanup, the empty-text cleanup, the non-empty-text
store invariant, and the remove-failure 500. -/
theorem upload_partial_cleanup_witness :
    ((upload_pdf (some badXrefFile)
      "sid1" 1000 [] ⟨[], []⟩).1.status = 400 ∧
     (upload_pdf (some badXrefFile)
      "sid1" 1000 [] ⟨[], []⟩).2.1 = [] ∧
     uploadPath "sid1" badXrefFile ∉
       ((upload_pdf (some badXrefFile)
         "sid1" 1000 [] ⟨[], []⟩).2.2).files) ∧
    (∀ kv ∈ (upload_pdf (some blankPagesFile)
      "sid1" 1000 [] ⟨[], []⟩).2.1, kv.2.text ≠ "") ∧
    ((upload_pdf (some badXrefFile)
      "sid1" 1000 [] ⟨[], ["uploads/sid1_report.pdf"]⟩).1.status = 500 ∧
     (upload_pdf (some badXrefFile)
      "sid1" 1000 [] ⟨[], ["uploads/sid1_report.pdf"]⟩).2.1 = []) :=
  ⟨upload_partial_cleanup.1 badXrefFile
    "sid1" 1000 [] ⟨[], []⟩
    ("Error extracting text from PDF: " ++ "bad xref table")
    (by decide) (by decide) rfl (by decide),
   upload_partial_cleanup.2.2.1 (some blankPagesFile)
    "sid1" 1000 [] ⟨[], []⟩ (by intro kv hkv; cases hkv),
   upload_partial_cleanup.2.2.2 badXrefFile
    "sid1" 1000 [] ⟨[], ["uploads/sid1_report.pdf"]⟩
    ("Error extracting text from PDF: " ++ "bad xref table")
    (by decide) (by decide) rfl (by decide)⟩

/-- C5: one sweep pass at time `now` keeps every session whose last
touch is at most thirty minutes old, removes every session strictly
older than thirty minutes (reporting its id among the expired ones), and
for each removed record deletes the associated file when the removal
call succeeds; a failing removal is swallowed and never prevents the
session entry itself from being removed. -/
theorem cleanup_sweep_correct (now : Nat) (store : Store) (fs : FileSys)
    (hnd : (store.map Prod.fst).Nodup) (kv : String × SessionRecord)
    (hmem : kv ∈ store) :
    (now - kv.2.timestamp ≤ SESSION_TIMEOUT_MINUTES * 60 →
      kv ∈ (cleanup_old_sessions now store fs).1) ∧
    (SESSION_TIMEOUT_MINUTES * 60 < now - kv.2.timestamp →
      (∀ kv' ∈ (cleanup_old_sessions now store fs).1, kv'.1 ≠ kv.1) ∧
      kv.1 ∈ (cleanup_old_sessions now store fs).2.2 ∧
      (kv.2.file_path ∉ fs.removeFails →
        kv.2.file_path ∉ ((cleanup_old_sessions now store fs).2.1).files)) := by
  constructor
  · intro hle
    rw [cleanup_store_eq, List.mem_filter]
    refine ⟨hmem, ?_⟩
    rw [decide_eq_true_eq]
    intro hin
    rcases (mem_expiredIds _ _ _).mp hin with ⟨kv', hmem', hfst, hexp⟩
    have heq : kv' = kv := mem_eq_of_nodup_keys store kv' kv hnd hmem' hmem hfst
    rw [heq, sessionExpired, decide_eq_true_eq] at hexp
    exact absurd hexp (not_lt.mpr hle)
  · intro hgt
    have hexp : sessionExpired now kv.2.timestamp = true := by
      rw [sessionExpired, decide_eq_true_eq]; exact hgt
    have hin : kv.1 ∈ expiredIds now store :=
      (mem_expiredIds _ _ _).mpr ⟨kv, hmem, rfl, hexp⟩
    refine ⟨?_, ?_, ?_⟩
    · intro kv' hkv' hfst
      rw [cleanup_store_eq] at hkv'
      have h2 := (List.mem_filter.mp hkv').2
      rw [decide_eq_true_eq] at h2
      exact h2 (hfst ▸ hin)
    · rw [cleanup_removed_eq]
      exact hin
    · intro hrm
      rw [cleanup_fs_eq now store fs hnd]
      apply foldl_tryRemove_removes _ fs kv.2 _ hrm
      rw [List.mem_filterMap]
      exact ⟨kv.1, hin, dictGet_of_mem_nodup store kv hnd hmem⟩

/-- Witness for `cleanup_sweep_correct`: a sweep at second 3000 over a
fresh session (touched at second 1740) and an expired one (touched at
second 0) whose file exists. -/
theorem cleanup_sweep_witness :
    ("fresh", ({ text := "T", file_path := "uploads/fresh_r.pdf",
                 filename := "r.pdf", timestamp := 1740 } : SessionRecord)) ∈
      (cleanup_old_sessions 3000
        [("fresh", { text := "T", file_path := "uploads/fresh_r.pdf",
                     filename := "r.pdf", timestamp := 1740 }),
         ("old", { text := "U", file_path := "uploads/old_r.pdf",
                   filename := "s.pdf", timestamp := 0 })]
        ⟨["uploads/fresh_r.pdf", "uploads/old_r.pdf"], []⟩).1 ∧
    "old" ∈ (cleanup_old_sessions 3000
        [("fresh", { text := "T", file_path := "uploads/fresh_r.pdf",
                     filename := "r.pdf", timestamp := 1740 }),
         ("old", { text := "U", file_path := "uploads/old_r.pdf",
                   filename := "s.pdf", timestamp := 0 })]
        ⟨["uploads/fresh_r.pdf", "uploads/old_r.pdf"], []⟩).2.2 ∧
    "uploads/old_r.pdf" ∉ ((cleanup_old_sessions 3000
        [("fresh", { text := "T", file_path := "uploads/fresh_r.pdf",
                     filename := "r.pdf", timestamp := 1740 }),
         ("old", { text := "U", file_path := "uploads/old_r.pdf",
                   filename := "s.pdf", timestamp := 0 })]
        ⟨["uploads/fresh_r.pdf", "uploads/old_r.pdf"], []⟩).2.1).files :=
  ⟨(cleanup_sweep_correct 3000
      [("fresh", { text := "T", file_path := "uploads/fresh_r.pdf",
                   filename := "r.pdf", timestamp := 1740 }),
       ("old", { text := "U", file_path := "uploads/old_r.pdf",
                 filename := "s.pdf", timestamp := 0 })]
      ⟨["uploads/fresh_r.pdf", "uploads/old_r.pdf"], []⟩ (by decide)
      ("fresh", { text := "T", file_path := "uploads/fresh_r.pdf",
                  filename := "r.pdf", timestamp := 1740 }) (by decide)).1
      (by decide),
   ((cleanup_sweep_correct 3000
      [("fresh", { text := "T", file_path := "uploads/fresh_r.pdf",
                   filename := "r.pdf", timestamp := 1740 }),
       ("old", { text := "U", file_path := "uploads/old_r.pdf",
                 filename := "s.pdf", timestamp := 0 })]
      ⟨["uploads/fresh_r.pdf", "uploads/old_r.pdf"], []⟩ (by decide)
      ("old", { text := "U", file_path := "uploads/old_r.pdf",
                filename := "s.pdf", timestamp := 0 }) (by decide)).2
      (by decide)).2.1,
   ((cleanup_sweep_correct 3000
      [("fresh", { text := "T", file_path := "uploads/fresh_r.pdf",
                   filename := "r.pdf", timestamp := 1740 }),
       ("old", { text := "U", file_path := "uploads/old_r.pdf",
                 filename := "s.pdf", timestamp := 0 })]
      ⟨["uploads/fresh_r.pdf", "uploads/old_r.pdf"], []⟩ (by decide)
      ("old", { text := "U", file_path := "uploads/old_r.pdf",
                filename := "s.pdf", timestamp := 0 }) (by decide)).2
      (by decide)).2.2 (by decide)⟩

end MedReport
